import Mathlib

/-!
Shallow embedding of the put-call-parity paper-trading bot
(`arbitrage_bot.py`): configuration constants, the quote snapshot,
the arbitrage detector, the quality gate, the risk-gated entry
(`execute_trade`, PAPER path), monitoring (`monitor_trade`, PAPER and
SHADOW paths) and settlement (`exit_trade`).  Prices and times are
modelled as rationals; session state is passed explicitly.
-/

namespace ArbitrageBot

/-- Configuration constant `INITIAL_CAPITAL = 10000.0`. -/
def INITIAL_CAPITAL : ℚ := 10000

/-- Configuration constant `MAX_CAPITAL_PER_TRADE = 0.10`. -/
def MAX_CAPITAL_PER_TRADE : ℚ := 1/10

/-- Configuration constant `MAX_MARGIN_USAGE = 0.80`. -/
def MAX_MARGIN_USAGE : ℚ := 4/5

/-- Configuration constant `MAX_TRADES_PER_DAY = 3`. -/
def MAX_TRADES_PER_DAY : ℕ := 3

/-- Configuration constant `DISABLE_AFTER_LOSS = True`. -/
def DISABLE_AFTER_LOSS : Bool := true

/-- Configuration constant `TRANSACTION_COSTS = 5.0` (per leg). -/
def TRANSACTION_COSTS : ℚ := 5

/-- Configuration constant `MIN_PROFIT_THRESHOLD = 2.0`. -/
def MIN_PROFIT_THRESHOLD : ℚ := 2

/-- Configuration constant `EXIT_THRESHOLD = 10.0`. -/
def EXIT_THRESHOLD : ℚ := 10

/-- Configuration constant `MAX_TRADE_DURATION = 300` seconds. -/
def MAX_TRADE_DURATION : ℚ := 300

/-- Configuration constant `LOT_SIZE = 50`. -/
def LOT_SIZE : ℚ := 50

/-- Quote snapshot: the `prices` dictionary built by `fetch_prices`
(spot, futures, call, put, timestamp, atm_strike). -/
structure Prices where
  spot : ℚ
  futures : ℚ
  call : ℚ
  put : ℚ
  timestamp : ℚ
  atm_strike : ℚ
deriving DecidableEq, Repr

/-- Option leg kind (`'call'` / `'put'` strings in the source). -/
inductive Leg where
  | call
  | put
deriving DecidableEq, Repr

/-- Parity gap `abs((call_price - put_price) - (futures_price - atm_strike))`
as computed in `detect_arbitrage` (line 423), `monitor_trade` (lines 678,
700) and `exit_trade` (lines 741, 822). -/
def parityGap (call_price put_price futures_price strike : ℚ) : ℚ :=
  |((call_price - put_price) - (futures_price - strike))|

/-- Arbitrage signal: the `arbitrage_info` dictionary produced by
`detect_arbitrage` (lines 440-450). -/
structure ArbitrageInfo where
  parity_gap : ℚ
  call_put_gap : ℚ
  expensive_option : Leg
  cheap_option : Leg
  call_price : ℚ
  put_price : ℚ
  futures_price : ℚ
  spot_price : ℚ
  strike_price : ℚ
deriving DecidableEq, Repr

/-- Arbitrage detector `detect_arbitrage` (lines 408-459): computes the
parity gap and returns a signal exactly when it exceeds
`TRANSACTION_COSTS * 3 + MIN_PROFIT_THRESHOLD`; the leg with the higher
price is labelled expensive (put on ties, via the `else` branch). -/
def detect_arbitrage (prices : Prices) : Option ArbitrageInfo :=
  let call_price := prices.call
  let put_price := prices.put
  let futures_price := prices.futures
  let atm_strike := prices.atm_strike
  let parity_gap := parityGap call_price put_price futures_price atm_strike
  let call_put_gap := |call_price - put_price|
  let required_gap := TRANSACTION_COSTS * 3 + MIN_PROFIT_THRESHOLD
  if parity_gap > required_gap then
    let expensive : Leg := if call_price > put_price then .call else .put
    let cheap : Leg := if call_price > put_price then .put else .call
    some
      { parity_gap := parity_gap
        call_put_gap := call_put_gap
        expensive_option := expensive
        cheap_option := cheap
        call_price := call_price
        put_price := put_price
        futures_price := futures_price
        spot_price := prices.spot
        strike_price := atm_strike }
  else
    none

/-- Quality gate `validate_market_data_quality` (lines 131-200), with the
current wall-clock time passed explicitly.  Guards 1-3 and 5 reject;
guards 4, 6 and 7 (futures-spot distance, frozen feed, ATM-strike
deviation) only print warnings and never affect the result, so they do
not appear in the returned value. -/
def validate_market_data_quality (prices : Prices) (current_time : ℚ) : Bool :=
  if ¬(prices.spot > 0 ∧ prices.call > 0 ∧ prices.put > 0 ∧ prices.futures > 0) then
    false
  else if ¬(10000 ≤ prices.spot ∧ prices.spot ≤ 50000) then
    false
  else if prices.call > prices.spot * (1/10) ∨ prices.put > prices.spot * (1/10) then
    false
  else if current_time - prices.timestamp > 300 then
    false
  else
    true

/-- Expected ATM strike `round(spot / 50) * 50` from guard 7 of the
quality gate (line 191).  Python rounds half to even while Mathlib's
`round` rounds half up; the two agree away from exact halves, and all
uses here are at integer quotients. -/
def expected_atm (spot : ℚ) : ℚ :=
  ((round (spot / 50) : ℤ) : ℚ) * 50

/-- Exit reasons set by `monitor_trade` (lines 704, 710, 721 for the
PAPER path; 682, 688 for the SHADOW path). -/
inductive ExitReason where
  | parityRestored
  | timeLimit
  | marginBreach
deriving DecidableEq, Repr

/-- Trade status (`'open'` / `'closed'` in the PAPER trade dictionary). -/
inductive TradeStatus where
  | opened
  | closed
deriving DecidableEq, Repr

/-- PAPER-mode trade dictionary built in `execute_trade` (lines 557-621),
restricted to the fields the lifecycle logic reads or mutates. -/
structure Position where
  entry_call_price : ℚ
  entry_put_price : ℚ
  entry_futures_price : ℚ
  strike_price : ℚ
  expensive_option : Leg
  expected_locked_profit_total : ℚ
  entry_time : ℚ
  position_size : ℤ
  parity_gap : ℚ
  entry_cost : ℚ
  call_qty : ℤ
  put_qty : ℤ
  futures_qty : ℤ
  realized_pnl : ℚ
  status : TradeStatus
  exit_reason : Option ExitReason
  exit_time : Option ℚ
deriving DecidableEq, Repr

/-- Session state: the module-level globals `trades`, `open_trade`,
`daily_trade_count`, `trading_enabled`, `total_pnl` (lines 78-83). -/
structure SessionState where
  trades : List Position
  open_trade : Option Position
  daily_trade_count : ℕ
  trading_enabled : Bool
  total_pnl : ℚ
deriving DecidableEq, Repr

/-- Initial values of the globals (lines 78-83). -/
def initState : SessionState :=
  { trades := []
    open_trade := none
    daily_trade_count := 0
    trading_enabled := true
    total_pnl := 0 }

/-- Position sizing (lines 483-495): `capital_available / margin_per_contract`
truncated to an integer (all quantities are non-negative, so Python's
`int` is the floor), then `min(max(max_contracts, 1), 1)`. -/
def position_size_calc (call_price put_price : ℚ) : ℤ :=
  let capital_available := INITIAL_CAPITAL * MAX_CAPITAL_PER_TRADE
  let premium_difference := |call_price - put_price|
  let margin_per_contract := premium_difference * (1/2)
  let max_contracts : ℤ :=
    if margin_per_contract > 0 then ⌊capital_available / margin_per_contract⌋ else 1
  min (max max_contracts 1) 1

/-- Sanity-check condition of line 634: `abs(entry_cost) >
abs(expected_locked_profit_total) * 5`.  In the source this only prints a
warning; the trade proceeds. -/
def sanity_check_warning (entry_cost expected_locked_profit_total : ℚ) : Bool :=
  |entry_cost| > |expected_locked_profit_total| * 5

/-- Risk-gated PAPER entry `execute_trade` (lines 461-663, PAPER path):
safety gates, position sizing, expected-profit check, signed leg
quantities, entry cash flow, the hard entry-cost ceiling, and the state
update (`open_trade`, `trades.append`, `daily_trade_count += 1`).
Returns the created position (if any) and the new session state. -/
def execute_trade (arbitrage : ArbitrageInfo) (st : SessionState) (now : ℚ) :
    Option Position × SessionState :=
  if st.trading_enabled = false then (none, st)
  else if st.open_trade.isSome then (none, st)
  else if st.daily_trade_count ≥ MAX_TRADES_PER_DAY then (none, st)
  else
    let position_size := position_size_calc arbitrage.call_price arbitrage.put_price
    if position_size < 1 then (none, st)
    else
      let expected_locked_profit_per_unit := arbitrage.parity_gap - TRANSACTION_COSTS * 3
      let expected_locked_profit_total := expected_locked_profit_per_unit * LOT_SIZE
      if expected_locked_profit_total ≤ 0 then (none, st)
      else
        -- the defensive check on `expensive_option` (line 515) cannot fire:
        -- `Leg` has exactly the two valid values
        let call_expensive := arbitrage.expensive_option = Leg.call
        let call_qty : ℤ := if call_expensive then -position_size else position_size
        let put_qty : ℤ := if call_expensive then position_size else -position_size
        let futures_qty : ℤ := 0
        let entry_call_flow := -(call_qty : ℚ) * arbitrage.call_price * LOT_SIZE
        let entry_put_flow := -(put_qty : ℚ) * arbitrage.put_price * LOT_SIZE
        let entry_futures_flow := -(futures_qty : ℚ) * arbitrage.futures_price * LOT_SIZE
        let entry_cost := entry_call_flow + entry_put_flow + entry_futures_flow
          - TRANSACTION_COSTS * 3
        if |entry_cost| > INITIAL_CAPITAL * 2 then (none, st)
        else
          let trade : Position :=
            { entry_call_price := arbitrage.call_price
              entry_put_price := arbitrage.put_price
              entry_futures_price := arbitrage.futures_price
              strike_price := arbitrage.strike_price
              expensive_option := arbitrage.expensive_option
              expected_locked_profit_total := expected_locked_profit_total
              entry_time := now
              position_size := position_size
              parity_gap := arbitrage.parity_gap
              entry_cost := entry_cost
              call_qty := call_qty
              put_qty := put_qty
              futures_qty := futures_qty
              realized_pnl := 0
              status := .opened
              exit_reason := none
              exit_time := none }
          (some trade,
            { st with
                open_trade := some trade
                trades := st.trades ++ [trade]
                daily_trade_count := st.daily_trade_count + 1 })

/-- PAPER-path monitoring `monitor_trade` (lines 693-725): parity
restoration, then the time stop, then the margin-usage estimate, first
true condition wins; returns the exit reason, or `none` to stay open. -/
def monitor_trade_paper (trade : Position) (current : Prices) (now : ℚ) :
    Option ExitReason :=
  let current_parity_gap :=
    parityGap current.call current.put current.futures trade.strike_price
  if current_parity_gap < EXIT_THRESHOLD then some .parityRestored
  else if now - trade.entry_time > MAX_TRADE_DURATION then some .timeLimit
  else
    let parity_difference := trade.parity_gap * (trade.position_size : ℚ)
    let margin_required := parity_difference * (1/2)
    let margin_usage := margin_required / INITIAL_CAPITAL
    if margin_usage > MAX_MARGIN_USAGE then some .marginBreach
    else none

/-- SHADOW-path monitoring `monitor_trade` (lines 672-691): parity
restoration then the time stop; there is no margin check. -/
def monitor_trade_shadow (trade : Position) (current : Prices) (now : ℚ) :
    Option ExitReason :=
  let current_parity_gap :=
    parityGap current.call current.put current.futures trade.strike_price
  if current_parity_gap < EXIT_THRESHOLD then some .parityRestored
  else if now - trade.entry_time > MAX_TRADE_DURATION then some .timeLimit
  else none

/-- PAPER settlement formula of `exit_trade` (lines 770-797): per-leg
realized P&L `(exit - entry) * signed_qty * LOT_SIZE` for call and put,
the futures term only when `futures_qty ≠ 0`, minus
`TRANSACTION_COSTS * 6`. -/
def paper_realized_pnl (trade : Position) (current : Prices) : ℚ :=
  let call_pnl_total :=
    (current.call - trade.entry_call_price) * (trade.call_qty : ℚ) * LOT_SIZE
  let put_pnl_total :=
    (current.put - trade.entry_put_price) * (trade.put_qty : ℚ) * LOT_SIZE
  let futures_pnl_total :=
    if trade.futures_qty ≠ 0 then
      (current.futures - trade.entry_futures_price) * (trade.futures_qty : ℚ) * LOT_SIZE
    else 0
  call_pnl_total + put_pnl_total + futures_pnl_total - TRANSACTION_COSTS * 6

/-- PAPER exit `exit_trade` (lines 763-829): computes the realized P&L,
adds it to `total_pnl`, disables trading on a loss (line 811,
`DISABLE_AFTER_LOSS`), clears `open_trade` and marks the trade closed.
The trade dictionary was appended to `trades` at entry and is mutated in
place, so the exited position is the last history element; the embedding
updates it there. -/
def exit_trade (st : SessionState) (current : Prices) (now : ℚ)
    (reason : ExitReason) : SessionState :=
  match st.open_trade with
  | none => st
  | some trade =>
    let pnl := paper_realized_pnl trade current
    let closedTrade : Position :=
      { trade with
          realized_pnl := pnl
          status := .closed
          exit_reason := some reason
          exit_time := some now }
    { st with
        total_pnl := st.total_pnl + pnl
        trading_enabled :=
          if pnl < 0 ∧ DISABLE_AFTER_LOSS = true then false else st.trading_enabled
        open_trade := none
        trades := st.trades.dropLast ++ [closedTrade] }

/-- Daily counter reset `reset_daily_counters` (lines 835-842), with the
date comparison passed as a flag; it touches only `daily_trade_count`. -/
def reset_daily_counters (st : SessionState) (dateChanged : Bool) : SessionState :=
  if dateChanged then { st with daily_trade_count := 0 } else st

/-- Detection-and-entry half of a main-loop iteration (lines 894-897). -/
def entry_phase (st : SessionState) (prices : Prices) (now : ℚ) : SessionState :=
  match detect_arbitrage prices with
  | some arbitrage => (execute_trade arbitrage st now).2
  | none => st

/-- Monitor-and-exit half of a main-loop iteration (lines 902-904). -/
def exit_phase (st : SessionState) (prices : Prices) (now : ℚ) : SessionState :=
  match st.open_trade with
  | none => st
  | some trade =>
    match monitor_trade_paper trade prices now with
    | some reason => exit_trade st prices now reason
    | none => st

/-- One iteration of the main loop (lines 893-904) in PAPER mode on a
fixed day: detect, possibly enter, then monitor the open trade and exit
when monitoring signals. -/
def step (st : SessionState) (prices : Prices) (now : ℚ) : SessionState :=
  exit_phase (entry_phase st prices now) prices now

/-- Main-loop run over a sequence of timestamped snapshots. -/
def run (ticks : List (Prices × ℚ)) : SessionState :=
  ticks.foldl (fun st tick => step st tick.1 tick.2) initState

/-- SHADOW expected profit (line 534):
`parity_gap * LOT_SIZE - TRANSACTION_COSTS * 3`. -/
def shadow_expected_profit (parity_gap : ℚ) : ℚ :=
  parity_gap * LOT_SIZE - TRANSACTION_COSTS * 3

/-- SHADOW settlement of `exit_trade` (lines 736-756): hypothetical P&L
as `expected_profit * convergence_ratio * 0.85`, where the convergence
part is `min(1, (entry_gap - exit_gap) / entry_gap)` when the entry gap
is positive and `0` otherwise. -/
def shadow_realized_pnl (entry_gap : ℚ) (current : Prices) (strike : ℚ) : ℚ :=
  let exit_gap := parityGap current.call current.put current.futures strike
  let conv := if entry_gap > 0 then min 1 ((entry_gap - exit_gap) / entry_gap) else 0
  shadow_expected_profit entry_gap * conv * (85/100)

/-- Status projection used by the ledger accounting. -/
def TradeStatus.isClosed : TradeStatus → Bool
  | .opened => false
  | .closed => true

/-- Sum of `realized_pnl` over the closed positions of a history. -/
def closedPnlSum (l : List Position) : ℚ :=
  ((l.filter fun t => t.status.isClosed).map Position.realized_pnl).sum

/-- Ledger invariant maintained by the main loop: `total_pnl` is the sum
of the realized P&L of the closed trades in the history, and the open
trade, if any, is the still-open last history element (it was appended
at entry and is shared by reference with `open_trade` in the source). -/
def LedgerInv (st : SessionState) : Prop :=
  st.total_pnl = closedPnlSum st.trades
  ∧ ∀ t, st.open_trade = some t →
      t.status = TradeStatus.opened ∧ ∃ pre, st.trades = pre ++ [t]

/-- Concrete snapshot with a large parity gap (spec scenario A):
spot 22000, call 150, put 80, futures 22010, strike 22000. -/
def pA : Prices :=
  { spot := 22000, futures := 22010, call := 150, put := 80
    timestamp := 0, atm_strike := 22000 }

/-- Signal produced by `detect_arbitrage` on `pA`: parity gap 60. -/
def arbA : ArbitrageInfo :=
  { parity_gap := 60, call_put_gap := 70
    expensive_option := .call, cheap_option := .put
    call_price := 150, put_price := 80, futures_price := 22010
    spot_price := 22000, strike_price := 22000 }

/-- Position created by `execute_trade arbA initState 0`. -/
def tA : Position :=
  { entry_call_price := 150, entry_put_price := 80, entry_futures_price := 22010
    strike_price := 22000, expensive_option := .call
    expected_locked_profit_total := 2250, entry_time := 0, position_size := 1
    parity_gap := 60, entry_cost := 3485
    call_qty := -1, put_qty := 1, futures_qty := 0
    realized_pnl := 0, status := .opened, exit_reason := none, exit_time := none }

/-- Concrete snapshot with parity gap 18: call 120, put 102,
futures 22000, strike 22000. -/
def pB : Prices :=
  { spot := 22000, futures := 22000, call := 120, put := 102
    timestamp := 0, atm_strike := 22000 }

/-- Signal produced by `detect_arbitrage` on `pB`. -/
def arbB : ArbitrageInfo :=
  { parity_gap := 18, call_put_gap := 18
    expensive_option := .call, cheap_option := .put
    call_price := 120, put_price := 102, futures_price := 22000
    spot_price := 22000, strike_price := 22000 }

/-- Position created by `execute_trade arbB initState 0`: entry cost 885
against an expected locked profit of 150, so the sanity-check warning
condition of line 634 holds. -/
def tB : Position :=
  { entry_call_price := 120, entry_put_price := 102, entry_futures_price := 22000
    strike_price := 22000, expensive_option := .call
    expected_locked_profit_total := 150, entry_time := 0, position_size := 1
    parity_gap := 18, entry_cost := 885
    call_qty := -1, put_qty := 1, futures_qty := 0
    realized_pnl := 0, status := .opened, exit_reason := none, exit_time := none }

/-- Session state right after the `arbB` entry. -/
def stB : SessionState := (execute_trade arbB initState 0).2

/-- Exit snapshot for `tB` with parity gap 5: the parity-restoration
exit fires and the PAPER realized P&L is 620. -/
def curB : Prices :=
  { spot := 22000, futures := 22000, call := 105, put := 100
    timestamp := 0, atm_strike := 22000 }

/-- Exit snapshot for `tB` on which the short call loses: the PAPER
realized P&L is -630. -/
def curLoss : Prices :=
  { spot := 22000, futures := 22000, call := 130, put := 100
    timestamp := 0, atm_strike := 22000 }

/-- Session state with the kill switch tripped. -/
def stDisabled : SessionState := { initState with trading_enabled := false }

/-- Signal whose entry cash flow `50 * (500 - 80) - 15 = 20985` exceeds
the `2 * INITIAL_CAPITAL` ceiling, so the PAPER entry aborts. -/
def arbC : ArbitrageInfo :=
  { parity_gap := 420, call_put_gap := 420
    expensive_option := .call, cheap_option := .put
    call_price := 500, put_price := 80, futures_price := 22000
    spot_price := 22000, strike_price := 22000 }

/-- Open position with a huge entry parity gap (20020), admissible at
entry (entry cost 985), whose margin-usage estimate exceeds the 80%
cap. -/
def tM : Position :=
  { entry_call_price := 100, entry_put_price := 80, entry_futures_price := 10000
    strike_price := 30000, expensive_option := .call
    expected_locked_profit_total := 1000250, entry_time := 0, position_size := 1
    parity_gap := 20020, entry_cost := 985
    call_qty := -1, put_qty := 1, futures_qty := 0
    realized_pnl := 0, status := .opened, exit_reason := none, exit_time := none }

/-- Snapshot on which `tM` has current parity gap 20020 (no parity or
time exit) while the margin estimate forces a PAPER exit. -/
def curM : Prices :=
  { spot := 22000, futures := 10000, call := 100, put := 80
    timestamp := 0, atm_strike := 30000 }

/-- Snapshot whose reported strike (21000) deviates from the expected
ATM strike `round(22000 / 50) * 50 = 22000` by 1000, all other guards
passing. -/
def pBadStrike : Prices :=
  { spot := 22000, futures := 22000, call := 100, put := 100
    timestamp := 0, atm_strike := 21000 }

/-- Position sizing always yields exactly one contract: the clamp
`min(max(max_contracts, 1), 1)` is constantly 1. -/
theorem position_size_calc_eq_one (c p : ℚ) : position_size_calc c p = 1 := by
  simp only [position_size_calc]
  split_ifs <;> omega

/-- Appending a position to a history adds its realized P&L to the
closed-P&L sum exactly when it is closed. -/
theorem closedPnlSum_append (l : List Position) (t : Position) :
    closedPnlSum (l ++ [t]) =
      closedPnlSum l + (if t.status.isClosed then t.realized_pnl else 0) := by
  unfold closedPnlSum
  rw [List.filter_append]
  by_cases h : t.status.isClosed
  · simp [h]
  · simp [h]

/-- Entry either rejects with the state unchanged, or admits an open
position, appends it to the history and increments the daily counter. -/
theorem execute_trade_cases (arb : ArbitrageInfo) (st : SessionState) (now : ℚ) :
    execute_trade arb st now = (none, st)
    ∨ ∃ t : Position, t.status = TradeStatus.opened
        ∧ execute_trade arb st now =
            (some t,
              { st with
                  open_trade := some t
                  trades := st.trades ++ [t]
                  daily_trade_count := st.daily_trade_count + 1 }) := by
  simp only [execute_trade]
  split_ifs
  all_goals first
    | exact Or.inl rfl
    | exact Or.inr ⟨_, rfl, rfl⟩

/-- Entry preserves the ledger invariant. -/
theorem ledgerInv_execute_trade (arb : ArbitrageInfo) (st : SessionState) (now : ℚ)
    (h : LedgerInv st) : LedgerInv (execute_trade arb st now).2 := by
  rcases execute_trade_cases arb st now with heq | ⟨t, hstat, heq⟩
  · rw [heq]; exact h
  · rw [heq]
    refine ⟨?_, ?_⟩
    · show st.total_pnl = closedPnlSum (st.trades ++ [t])
      rw [closedPnlSum_append, hstat]
      simpa [TradeStatus.isClosed] using h.1
    · intro t' ht'
      simp only [Option.some.injEq] at ht'
      subst ht'
      exact ⟨hstat, st.trades, rfl⟩

/-- Exit preserves the ledger invariant. -/
theorem ledgerInv_exit_trade (st : SessionState) (cur : Prices) (now : ℚ) (r : ExitReason)
    (h : LedgerInv st) : LedgerInv (exit_trade st cur now r) := by
  unfold exit_trade
  cases hopen : st.open_trade with
  | none => exact h
  | some t =>
    obtain ⟨hstat, pre, hpre⟩ := h.2 t hopen
    refine ⟨?_, ?_⟩
    · show st.total_pnl + paper_realized_pnl t cur
        = closedPnlSum (st.trades.dropLast ++ [_])
      rw [closedPnlSum_append]
      simp only [TradeStatus.isClosed, if_pos]
      rw [hpre, List.dropLast_concat, h.1, hpre, closedPnlSum_append, hstat]
      simp [TradeStatus.isClosed]
    · intro t' ht'
      simp at ht'

/-- The entry phase preserves the ledger invariant. -/
theorem ledgerInv_entry_phase (st : SessionState) (p : Prices) (now : ℚ)
    (h : LedgerInv st) : LedgerInv (entry_phase st p now) := by
  unfold entry_phase
  cases detect_arbitrage p with
  | some arb => exact ledgerInv_execute_trade arb st now h
  | none => exact h

/-- The exit phase preserves the ledger invariant. -/
theorem ledgerInv_exit_phase (st : SessionState) (p : Prices) (now : ℚ)
    (h : LedgerInv st) : LedgerInv (exit_phase st p now) := by
  unfold exit_phase
  cases st.open_trade with
  | none => exact h
  | some t =>
    dsimp only
    cases monitor_trade_paper t p now with
    | some r => exact ledgerInv_exit_trade st p now r h
    | none => exact h

/-- One loop iteration preserves the ledger invariant. -/
theorem ledgerInv_step (st : SessionState) (p : Prices) (now : ℚ)
    (h : LedgerInv st) : LedgerInv (step st p now) :=
  ledgerInv_exit_phase _ p now (ledgerInv_entry_phase st p now h)

/-- Folding the loop over any tick sequence preserves the invariant. -/
theorem ledgerInv_foldl (ticks : List (Prices × ℚ)) (st : SessionState)
    (h : LedgerInv st) :
    LedgerInv (ticks.foldl (fun s tick => step s tick.1 tick.2) st) := by
  induction ticks generalizing st with
  | nil => exact h
  | cons hd tl ih => exact ih _ (ledgerInv_step st hd.1 hd.2 h)

/-- A run from the initial state satisfies the ledger invariant. -/
theorem ledgerInv_run (ticks : List (Prices × ℚ)) : LedgerInv (run ticks) := by
  unfold run
  exact ledgerInv_foldl ticks initState ⟨by simp [initState, closedPnlSum], by simp [initState]⟩

/-- Any admitted entry has position size 1, zero futures leg, the signed
option quantities dictated by the expensive leg, and an entry cost within
the hard ceiling. -/
theorem execute_trade_success_fields (arb : ArbitrageInfo) (st : SessionState) (now : ℚ)
    (t : Position) (h : (execute_trade arb st now).1 = some t) :
    t.position_size = 1
    ∧ t.futures_qty = 0
    ∧ (arb.expensive_option = Leg.call → t.call_qty = -1 ∧ t.put_qty = 1)
    ∧ (arb.expensive_option = Leg.put → t.call_qty = 1 ∧ t.put_qty = -1)
    ∧ |t.entry_cost| ≤ INITIAL_CAPITAL * 2 := by
  simp only [execute_trade] at h
  split_ifs at h with g1 g2 g3 g4 g5 g6 g7
  all_goals cases h
  all_goals simp_all [position_size_calc_eq_one, not_lt]

/-- A rejected entry leaves the session state unchanged. -/
theorem execute_trade_none_state (arb : ArbitrageInfo) (st : SessionState) (now : ℚ)
    (h : (execute_trade arb st now).1 = none) :
    (execute_trade arb st now).2 = st := by
  rcases execute_trade_cases arb st now with heq | ⟨t, _, heq⟩
  · rw [heq]
  · rw [heq] at h ⊢
    simp at h

/-- Any of the three leading safety gates rejects the entry with the
state unchanged. -/
theorem execute_trade_gate_reject (arb : ArbitrageInfo) (st : SessionState) (now : ℚ)
    (h : st.trading_enabled = false ∨ st.open_trade.isSome = true
      ∨ st.daily_trade_count ≥ MAX_TRADES_PER_DAY) :
    execute_trade arb st now = (none, st) := by
  simp only [execute_trade]
  split_ifs with g1 g2 g3 <;> try rfl
  all_goals rcases h with h | h | h
  all_goals first
    | exact absurd h g1
    | exact absurd h g2
    | exact absurd h g3

/-- Exit never re-enables trading. -/
theorem exit_trade_preserves_disabled (st : SessionState) (cur : Prices) (now : ℚ)
    (r : ExitReason) (h : st.trading_enabled = false) :
    (exit_trade st cur now r).trading_enabled = false := by
  unfold exit_trade
  cases st.open_trade with
  | none => exact h
  | some t =>
    dsimp only
    split_ifs
    · rfl
    · exact h

/-- The exit phase never re-enables trading. -/
theorem exit_phase_preserves_disabled (st : SessionState) (p : Prices) (now : ℚ)
    (h : st.trading_enabled = false) :
    (exit_phase st p now).trading_enabled = false := by
  unfold exit_phase
  cases st.open_trade with
  | none => exact h
  | some t =>
    dsimp only
    cases monitor_trade_paper t p now with
    | none => exact h
    | some r => exact exit_trade_preserves_disabled st p now r h

/-- A full loop iteration never re-enables trading. -/
theorem step_preserves_disabled (st : SessionState) (p : Prices) (now : ℚ)
    (h : st.trading_enabled = false) :
    (step st p now).trading_enabled = false := by
  unfold step
  apply exit_phase_preserves_disabled
  unfold entry_phase
  cases detect_arbitrage p with
  | none => exact h
  | some arb =>
    dsimp only
    rw [execute_trade_gate_reject arb st now (Or.inl h)]
    exact h

/-- C1: for every price snapshot, `detect_arbitrage` computes
`parity_gap = |(call - put) - (futures - strike)|`, which is always
non-negative; the detection threshold `transaction_cost_per_leg * 3 +
minimum_profit_threshold` equals 17; a signal is returned exactly when
the parity gap exceeds that threshold, and any returned signal carries
exactly that parity gap. -/
theorem C1_detect_arbitrage_threshold (p : Prices) :
    0 ≤ parityGap p.call p.put p.futures p.atm_strike
    ∧ TRANSACTION_COSTS * 3 + MIN_PROFIT_THRESHOLD = (17 : ℚ)
    ∧ ((detect_arbitrage p).isSome ↔
        parityGap p.call p.put p.futures p.atm_strike
          > TRANSACTION_COSTS * 3 + MIN_PROFIT_THRESHOLD)
    ∧ ∀ info, detect_arbitrage p = some info →
        info.parity_gap = parityGap p.call p.put p.futures p.atm_strike := by
  refine ⟨abs_nonneg _, by norm_num [TRANSACTION_COSTS, MIN_PROFIT_THRESHOLD], ?_, ?_⟩
  · by_cases h : parityGap p.call p.put p.futures p.atm_strike
        > TRANSACTION_COSTS * 3 + MIN_PROFIT_THRESHOLD
    · simp [detect_arbitrage, h]
    · simp [detect_arbitrage, h]
  · intro info hinfo
    simp only [detect_arbitrage] at hinfo
    split_ifs at hinfo
    all_goals cases hinfo
    all_goals rfl

/-- C1 witness: on the snapshot with call 150, put 80, futures 22010,
strike 22000 the detector fires and the signal's gap is the parity-gap
formula. -/
theorem C1_detect_arbitrage_threshold_witness :
    arbA.parity_gap = parityGap pA.call pA.put pA.futures pA.atm_strike :=
  (C1_detect_arbitrage_threshold pA).2.2.2 arbA (by
    norm_num [detect_arbitrage, pA, arbA, parityGap, TRANSACTION_COSTS, MIN_PROFIT_THRESHOLD])

/-- C3: PAPER monitoring signals exit exactly when the parity gap
recomputed at the position's stored strike is below `EXIT_THRESHOLD`, or
elapsed time since entry exceeds `MAX_TRADE_DURATION`, or the margin
estimate `0.5 * parity_gap_at_entry * position_size / INITIAL_CAPITAL`
exceeds `MAX_MARGIN_USAGE`; the checks run in parity -> time -> margin
order and the first true condition fixes the exit reason. -/
theorem C3_monitor_exit_conditions (t : Position) (cur : Prices) (now : ℚ) :
    (monitor_trade_paper t cur now = some ExitReason.parityRestored ↔
      parityGap cur.call cur.put cur.futures t.strike_price < EXIT_THRESHOLD)
    ∧ (monitor_trade_paper t cur now = some ExitReason.timeLimit ↔
      ¬parityGap cur.call cur.put cur.futures t.strike_price < EXIT_THRESHOLD
      ∧ now - t.entry_time > MAX_TRADE_DURATION)
    ∧ (monitor_trade_paper t cur now = some ExitReason.marginBreach ↔
      ¬parityGap cur.call cur.put cur.futures t.strike_price < EXIT_THRESHOLD
      ∧ ¬now - t.entry_time > MAX_TRADE_DURATION
      ∧ t.parity_gap * (t.position_size : ℚ) * (1/2) / INITIAL_CAPITAL
          > MAX_MARGIN_USAGE)
    ∧ (monitor_trade_paper t cur now = none ↔
      ¬parityGap cur.call cur.put cur.futures t.strike_price < EXIT_THRESHOLD
      ∧ ¬now - t.entry_time > MAX_TRADE_DURATION
      ∧ ¬t.parity_gap * (t.position_size : ℚ) * (1/2) / INITIAL_CAPITAL
          > MAX_MARGIN_USAGE) := by
  simp only [monitor_trade_paper]
  split_ifs with h1 h2 h3 <;> simp_all

/-- C3 witness: on the exit snapshot for `tB` the parity gap is 5 < 10,
so monitoring signals the parity-restored exit. -/
theorem C3_monitor_exit_conditions_witness :
    monitor_trade_paper tB curB 5 = some ExitReason.parityRestored :=
  (C3_monitor_exit_conditions tB curB 5).1.mpr (by
    norm_num [parityGap, tB, curB, EXIT_THRESHOLD])

/-- C4: every admitted PAPER entry carries `call_qty = -size`,
`put_qty = +size` when the call is the expensive leg, the inverted signs
when the put is, and `futures_qty = 0` always; hence
`|call_qty| = |put_qty| = position_size`. -/
theorem C4_entry_leg_quantities (arb : ArbitrageInfo) (st : SessionState) (now : ℚ)
    (t : Position) (h : (execute_trade arb st now).1 = some t) :
    (arb.expensive_option = Leg.call →
      t.call_qty = -t.position_size ∧ t.put_qty = t.position_size)
    ∧ (arb.expensive_option = Leg.put →
      t.call_qty = t.position_size ∧ t.put_qty = -t.position_size)
    ∧ t.futures_qty = 0
    ∧ |t.call_qty| = t.position_size
    ∧ |t.put_qty| = t.position_size := by
  obtain ⟨hsize, hfut, hcall, hput, _⟩ := execute_trade_success_fields arb st now t h
  refine ⟨?_, ?_, hfut, ?_, ?_⟩
  · intro hexp
    obtain ⟨h1, h2⟩ := hcall hexp
    rw [h1, h2, hsize]
    exact ⟨rfl, rfl⟩
  · intro hexp
    obtain ⟨h1, h2⟩ := hput hexp
    rw [h1, h2, hsize]
    exact ⟨rfl, rfl⟩
  · cases harb : arb.expensive_option with
    | call => obtain ⟨h1, _⟩ := hcall harb; rw [h1, hsize]; rfl
    | put => obtain ⟨h1, _⟩ := hput harb; rw [h1, hsize]; rfl
  · cases harb : arb.expensive_option with
    | call => obtain ⟨_, h2⟩ := hcall harb; rw [h2, hsize]; rfl
    | put => obtain ⟨_, h2⟩ := hput harb; rw [h2, hsize]; rfl

/-- C4 witness: the admitted entry on `arbA` (call expensive) has
`call_qty = -1`, `put_qty = +1`, `futures_qty = 0`. -/
theorem C4_entry_leg_quantities_witness :
    tA.call_qty = -tA.position_size ∧ tA.put_qty = tA.position_size
    ∧ tA.futures_qty = 0 ∧ |tA.call_qty| = tA.position_size := by
  have h := C4_entry_leg_quantities arbA initState 0 tA (by
    norm_num [execute_trade, position_size_calc, arbA, initState, tA, INITIAL_CAPITAL,
      MAX_CAPITAL_PER_TRADE, MAX_TRADES_PER_DAY, TRANSACTION_COSTS, LOT_SIZE])
  obtain ⟨hc, _, hf, ha, _⟩ := h
  obtain ⟨h1, h2⟩ := hc rfl
  exact ⟨h1, h2, hf, ha⟩

/-- C5: an entry attempt is rejected with no trade created and the
session state unchanged whenever trading is disabled, a position is
already open, or the daily trade count has reached the maximum. -/
theorem C5_entry_rejection_gates (arb : ArbitrageInfo) (st : SessionState) (now : ℚ)
    (h : st.trading_enabled = false ∨ st.open_trade.isSome = true
      ∨ st.daily_trade_count ≥ MAX_TRADES_PER_DAY) :
    execute_trade arb st now = (none, st) :=
  execute_trade_gate_reject arb st now h

/-- C5 witness: with the kill switch off, the entry on `arbA` is
rejected and the state unchanged. -/
theorem C5_entry_rejection_gates_witness :
    execute_trade arbA stDisabled 0 = (none, stDisabled) :=
  C5_entry_rejection_gates arbA stDisabled 0 (Or.inl (by norm_num [stDisabled, initState]))

/-- C6: a close with negative realized P&L sets `trading_enabled` to
false; once false, it stays false through every transition of the run
(entry, monitor/exit, full loop iteration, daily reset) and every
subsequent entry attempt is rejected with the state unchanged. -/
theorem C6_loss_kill_switch (st : SessionState) (cur : Prices) (now : ℚ)
    (r : ExitReason) (t : Position) :
    (st.open_trade = some t → paper_realized_pnl t cur < 0 →
      (exit_trade st cur now r).trading_enabled = false)
    ∧ (st.trading_enabled = false →
        (∀ arb, execute_trade arb st now = (none, st))
        ∧ (∀ p n, (step st p n).trading_enabled = false)
        ∧ (exit_trade st cur now r).trading_enabled = false
        ∧ ∀ d, (reset_daily_counters st d).trading_enabled = false) := by
  constructor
  · intro hopen hpnl
    unfold exit_trade
    rw [hopen]
    dsimp only
    rw [if_pos ⟨hpnl, rfl⟩]
  · intro hdis
    refine ⟨fun arb => execute_trade_gate_reject arb st now (Or.inl hdis),
      fun p n => step_preserves_disabled st p n hdis,
      exit_trade_preserves_disabled st cur now r hdis, fun d => ?_⟩
    unfold reset_daily_counters
    split_ifs
    · exact hdis
    · exact hdis

/-- C6 witness: the losing exit of `tB` trips the kill switch, and an
entry attempt with the switch tripped is rejected. -/
theorem C6_loss_kill_switch_witness :
    (exit_trade stB curLoss 5 ExitReason.timeLimit).trading_enabled = false
    ∧ execute_trade arbA stDisabled 0 = (none, stDisabled) := by
  constructor
  · exact (C6_loss_kill_switch stB curLoss 5 ExitReason.timeLimit tB).1
      (by norm_num [stB, execute_trade, position_size_calc, arbB, initState, tB,
        INITIAL_CAPITAL, MAX_CAPITAL_PER_TRADE, MAX_TRADES_PER_DAY, TRANSACTION_COSTS,
        LOT_SIZE])
      (by norm_num [paper_realized_pnl, tB, curLoss, LOT_SIZE, TRANSACTION_COSTS])
  · exact ((C6_loss_kill_switch stDisabled curB 0 ExitReason.timeLimit tB).2
      (by norm_num [stDisabled, initState])).1 arbA

/-- C10: the position-size computation `min(max(max_contracts, 1), 1)`
is constantly 1 for every signal, so the `position_size < 1` rejection
branch is unreachable and every admitted position has exactly one
contract on each option leg. -/
theorem C10_position_size_always_one :
    (∀ c p : ℚ, position_size_calc c p = 1)
    ∧ (∀ c p : ℚ, ¬position_size_calc c p < 1)
    ∧ ∀ (arb : ArbitrageInfo) (st : SessionState) (now : ℚ) (t : Position),
        (execute_trade arb st now).1 = some t →
          t.position_size = 1 ∧ |t.call_qty| = 1 ∧ |t.put_qty| = 1 := by
  refine ⟨position_size_calc_eq_one,
    fun c p => by rw [position_size_calc_eq_one]; omega, ?_⟩
  intro arb st now t h
  obtain ⟨hsize, _, hcall, hput, _⟩ := execute_trade_success_fields arb st now t h
  refine ⟨hsize, ?_, ?_⟩
  · cases harb : arb.expensive_option with
    | call => rw [(hcall harb).1]; rfl
    | put => rw [(hput harb).1]; rfl
  · cases harb : arb.expensive_option with
    | call => rw [(hcall harb).2]; rfl
    | put => rw [(hput harb).2]; rfl

/-- C10 witness: on `arbA` (premium difference 70) the computed size is
1 and the admitted position's leg quantities have absolute value 1. -/
theorem C10_position_size_always_one_witness :
    position_size_calc 150 80 = 1 ∧ tA.position_size = 1 ∧ |tA.call_qty| = 1 := by
  refine ⟨C10_position_size_always_one.1 150 80, ?_, ?_⟩
  · exact (C10_position_size_always_one.2.2 arbA initState 0 tA (by
      norm_num [execute_trade, position_size_calc, arbA, initState, tA, INITIAL_CAPITAL,
        MAX_CAPITAL_PER_TRADE, MAX_TRADES_PER_DAY, TRANSACTION_COSTS, LOT_SIZE])).1
  · exact (C10_position_size_always_one.2.2 arbA initState 0 tA (by
      norm_num [execute_trade, position_size_calc, arbA, initState, tA, INITIAL_CAPITAL,
        MAX_CAPITAL_PER_TRADE, MAX_TRADES_PER_DAY, TRANSACTION_COSTS, LOT_SIZE])).2.1

/-- C2 counterexample: the position created from `arbB` is already the
sole element of the trade history while it is still open, and the exit
leaves the history length at 1 — the exit does not append the Position,
entry did (line 647 of the source). -/
theorem C2_history_counterexample :
    stB.open_trade = some tB
    ∧ stB.trades = [tB]
    ∧ (exit_trade stB curB 5 ExitReason.parityRestored).trades.length = 1 := by
  have hstB : stB
      = { initState with open_trade := some tB, trades := [tB], daily_trade_count := 1 } := by
    norm_num [stB, execute_trade, position_size_calc, arbB, initState, tB, INITIAL_CAPITAL,
      MAX_CAPITAL_PER_TRADE, MAX_TRADES_PER_DAY, TRANSACTION_COSTS, LOT_SIZE]
  rw [hstB]
  refine ⟨rfl, rfl, ?_⟩
  simp [exit_trade, initState]

/-- C2 (amended): on every exit of an open PAPER position the realized
P&L follows the signed-leg formula (futures leg zero when
`futures_qty = 0`), is added to `total_pnl`, the open slot is cleared
and the history length is unchanged (the Position was appended at entry
and is closed in place); over any run, `total_pnl` equals the sum of the
realized P&L of the closed trades in the history. -/
theorem C2_exit_settlement_ledger (st : SessionState) (cur : Prices) (now : ℚ)
    (r : ExitReason) (t : Position) (hopen : st.open_trade = some t)
    (hne : st.trades ≠ []) :
    (exit_trade st cur now r).total_pnl = st.total_pnl + paper_realized_pnl t cur
    ∧ (exit_trade st cur now r).open_trade = none
    ∧ (exit_trade st cur now r).trades.length = st.trades.length
    ∧ (t.futures_qty = 0 →
        paper_realized_pnl t cur =
          (cur.call - t.entry_call_price) * (t.call_qty : ℚ) * LOT_SIZE
          + (cur.put - t.entry_put_price) * (t.put_qty : ℚ) * LOT_SIZE
          - TRANSACTION_COSTS * 6)
    ∧ ∀ ticks : List (Prices × ℚ),
        (run ticks).total_pnl = closedPnlSum (run ticks).trades := by
  refine ⟨?_, ?_, ?_, ?_, fun ticks => (ledgerInv_run ticks).1⟩
  · simp [exit_trade, hopen]
  · simp [exit_trade, hopen]
  · have hlen := List.length_pos.mpr hne
    simp only [exit_trade, hopen]
    simp [List.length_dropLast]
    omega
  · intro hf
    simp [paper_realized_pnl, hf]

/-- C2 witness: the exit of `tB` on `curB` realizes 620, adds it to the
total and clears the slot. -/
theorem C2_exit_settlement_ledger_witness :
    (exit_trade stB curB 5 ExitReason.parityRestored).total_pnl
        = stB.total_pnl + paper_realized_pnl tB curB
    ∧ (exit_trade stB curB 5 ExitReason.parityRestored).open_trade = none
    ∧ paper_realized_pnl tB curB =
        (curB.call - tB.entry_call_price) * (tB.call_qty : ℚ) * LOT_SIZE
        + (curB.put - tB.entry_put_price) * (tB.put_qty : ℚ) * LOT_SIZE
        - TRANSACTION_COSTS * 6 := by
  obtain ⟨h1, h2, _, h4, _⟩ := C2_exit_settlement_ledger stB curB 5 ExitReason.parityRestored tB
    (by norm_num [stB, execute_trade, position_size_calc, arbB, initState, tB,
      INITIAL_CAPITAL, MAX_CAPITAL_PER_TRADE, MAX_TRADES_PER_DAY, TRANSACTION_COSTS, LOT_SIZE])
    (by norm_num [stB, execute_trade, position_size_calc, arbB, initState, tB,
      INITIAL_CAPITAL, MAX_CAPITAL_PER_TRADE, MAX_TRADES_PER_DAY, TRANSACTION_COSTS, LOT_SIZE])
  exact ⟨h1, h2, h4 (by norm_num [tB])⟩

/-- C7 counterexample: the entry from `arbB` has entry cost 885, more
than five times the expected locked profit of 150, yet the entry is
admitted (the line-634 check only warns) and the daily counter is
incremented. -/
theorem C7_sanity_warning_counterexample :
    sanity_check_warning tB.entry_cost tB.expected_locked_profit_total = true
    ∧ (execute_trade arbB initState 0).1 = some tB
    ∧ (execute_trade arbB initState 0).2.daily_trade_count = 1 := by
  refine ⟨by norm_num [sanity_check_warning, tB], ?_, ?_⟩
  · norm_num [execute_trade, position_size_calc, arbB, initState, tB, INITIAL_CAPITAL,
      MAX_CAPITAL_PER_TRADE, MAX_TRADES_PER_DAY, TRANSACTION_COSTS, LOT_SIZE]
  · norm_num [execute_trade, position_size_calc, arbB, initState, INITIAL_CAPITAL,
      MAX_CAPITAL_PER_TRADE, MAX_TRADES_PER_DAY, TRANSACTION_COSTS, LOT_SIZE]

/-- C7 (amended): every rejected PAPER entry — in particular the
`|entry_cost| > 2 * INITIAL_CAPITAL` hard abort — leaves the session
state unchanged (no Position persisted, no daily-count increment), and
every admitted entry has `|entry_cost|` within the 2x-capital ceiling;
the 5x-expected-profit condition only logs a warning and does not
abort. -/
theorem C7_entry_cost_ceiling (arb : ArbitrageInfo) (st : SessionState) (now : ℚ) :
    ((execute_trade arb st now).1 = none → (execute_trade arb st now).2 = st)
    ∧ ∀ t, (execute_trade arb st now).1 = some t →
        |t.entry_cost| ≤ INITIAL_CAPITAL * 2 := by
  exact ⟨execute_trade_none_state arb st now,
    fun t h => (execute_trade_success_fields arb st now t h).2.2.2.2⟩

/-- C7 witness: the entry from `arbC` (entry cost 20985 > 20000) is
aborted with the state unchanged, while the admitted entry from `arbB`
is within the ceiling. -/
theorem C7_entry_cost_ceiling_witness :
    (execute_trade arbC initState 0).2 = initState
    ∧ |tB.entry_cost| ≤ INITIAL_CAPITAL * 2 := by
  constructor
  · exact (C7_entry_cost_ceiling arbC initState 0).1 (by
      norm_num [execute_trade, position_size_calc, arbC, initState, INITIAL_CAPITAL,
        MAX_CAPITAL_PER_TRADE, MAX_TRADES_PER_DAY, TRANSACTION_COSTS, LOT_SIZE])
  · exact (C7_entry_cost_ceiling arbB initState 0).2 tB (by
      norm_num [execute_trade, position_size_calc, arbB, initState, tB, INITIAL_CAPITAL,
        MAX_CAPITAL_PER_TRADE, MAX_TRADES_PER_DAY, TRANSACTION_COSTS, LOT_SIZE])

/-- C8 counterexample: on the same position and exit snapshot the
SHADOW settlement (convergence-ratio capture, 13039/24) differs from
the PAPER settlement (signed-leg accounting, 620); and on the position
`tM` PAPER monitoring exits on a margin breach while SHADOW monitoring
signals no exit at the same tick. -/
theorem C8_mode_divergence_counterexample :
    shadow_realized_pnl tB.parity_gap curB tB.strike_price ≠ paper_realized_pnl tB curB
    ∧ monitor_trade_paper tM curM 5 = some ExitReason.marginBreach
    ∧ monitor_trade_shadow tM curM 5 = none := by
  refine ⟨?_, ?_, ?_⟩
  · norm_num [shadow_realized_pnl, shadow_expected_profit, paper_realized_pnl, tB, curB,
      parityGap, LOT_SIZE, TRANSACTION_COSTS]
  · norm_num [monitor_trade_paper, tM, curM, parityGap, EXIT_THRESHOLD, MAX_TRADE_DURATION,
      INITIAL_CAPITAL, MAX_MARGIN_USAGE]
  · norm_num [monitor_trade_shadow, tM, curM, parityGap, EXIT_THRESHOLD, MAX_TRADE_DURATION]

/-- C8 (amended): for the same position and snapshot the
parity-restoration and time-limit exits fire identically in the PAPER
and SHADOW monitor paths (same conditions, same order), but the PAPER
path carries an additional margin-breach exit absent in SHADOW, and the
two settlement formulas differ, so realized P&L generally differs
between modes. -/
theorem C8_monitor_agreement (t : Position) (cur : Prices) (now : ℚ) :
    (monitor_trade_shadow t cur now = some ExitReason.parityRestored ↔
      monitor_trade_paper t cur now = some ExitReason.parityRestored)
    ∧ (monitor_trade_shadow t cur now = some ExitReason.timeLimit ↔
      monitor_trade_paper t cur now = some ExitReason.timeLimit)
    ∧ (monitor_trade_shadow t cur now = none →
        monitor_trade_paper t cur now = none
        ∨ monitor_trade_paper t cur now = some ExitReason.marginBreach) := by
  simp only [monitor_trade_paper, monitor_trade_shadow]
  split_ifs <;> simp_all

/-- C8 witness: on a tick with neither parity nor time exit, the SHADOW
monitor stays open and the PAPER monitor stays open or margin-exits. -/
theorem C8_monitor_agreement_witness :
    monitor_trade_paper tB pB 5 = none
    ∨ monitor_trade_paper tB pB 5 = some ExitReason.marginBreach :=
  (C8_monitor_agreement tB pB 5).2.2 (by
    norm_num [monitor_trade_shadow, tB, pB, parityGap, EXIT_THRESHOLD, MAX_TRADE_DURATION])

/-- C9 counterexample: a fresh snapshot whose reported strike 21000
deviates from the expected ATM `round(22000/50)*50 = 22000` by 1000
(far beyond the 100-point tolerance) is still accepted by the quality
gate — guard 7 only logs a warning. -/
theorem C9_strike_deviation_counterexample :
    |pBadStrike.atm_strike - expected_atm pBadStrike.spot| > 100
    ∧ validate_market_data_quality pBadStrike 0 = true := by
  constructor
  · norm_num [pBadStrike, expected_atm, round_eq]
  · norm_num [validate_market_data_quality, pBadStrike]

/-- C9 (amended): the quality gate rejects a snapshot exactly when some
price is non-positive, the spot is outside 10000..50000, the call or
put exceeds 10% of spot, or the data age exceeds 300 seconds; the
strike-deviation guard (like the futures-distance and frozen-feed
guards) only logs a warning and never causes rejection. -/
theorem C9_quality_gate_rejection (p : Prices) (now : ℚ) :
    validate_market_data_quality p now = true ↔
      (p.spot > 0 ∧ p.call > 0 ∧ p.put > 0 ∧ p.futures > 0)
      ∧ (10000 ≤ p.spot ∧ p.spot ≤ 50000)
      ∧ p.call ≤ p.spot * (1/10) ∧ p.put ≤ p.spot * (1/10)
      ∧ now - p.timestamp ≤ 300 := by
  simp only [validate_market_data_quality]
  split_ifs with h1 h2 h3 h4 <;> simp_all [not_or, not_lt, not_le]
  all_goals intros
  all_goals try rcases h3 with h3 | h3
  all_goals first
    | tauto
    | linarith

/-- C9 witness: the scenario-A snapshot passes all four rejecting
guards and is accepted. -/
theorem C9_quality_gate_rejection_witness :
    validate_market_data_quality pA 0 = true :=
  (C9_quality_gate_rejection pA 0).mpr (by norm_num [pA])

end ArbitrageBot
